import Mathlib

/-!
Shallow embedding of the EyeTracker repository (eye_tracker.py,
gazefollower/camera/WebCamCamera.py, gazefollower/ui/CalibrationUI.py),
restricted to the session state machine, the gaze-sample collection
callback, the statistics reducer, the image-saving bridge callback,
the session-directory naming logic and the webcam capture loop.

Numbers that the Python program handles as floats are modelled as
rationals; machine-level behaviour (actual file IO, pygame rendering,
thread scheduling) is represented by explicit state fields and effect
traces.  Paths are modelled relative to the working directory, because
every path the program constructs is of the form
os.path.join(os.getcwd(), name).
-/

namespace EyeTracker

/-- Session states of the controller (class AppState in eye_tracker.py). -/
inductive AppState
  | IDLE
  | CALIBRATED
  | RECORDING
  | STOPPED
  deriving DecidableEq, Repr

/-- Calibration quality tiers.  The source uses the French strings
EXCELLENT / BONNE / MOYENNE / FAIBLE; spelled here EXCELLENT / GOOD /
FAIR / POOR following the same order. -/
inductive Quality
  | EXCELLENT
  | GOOD
  | FAIR
  | POOR
  deriving DecidableEq, Repr

/-- Threshold chain of EyeTrackerApp.draw_calibration_quality
(eye_tracker.py lines 201-216); the identical chain appears in
CalibrationUI.draw_cali_result (CalibrationUI.py lines 63-78). -/
def calibration_quality_tier (calibration_score : ℚ) : Quality :=
  if calibration_score < 5/100 then .EXCELLENT
  else if calibration_score < 10/100 then .GOOD
  else if calibration_score < 20/100 then .FAIR
  else .POOR

/-- One entry of the gaze sample log, mirroring the dict literal built in
EyeTrackerApp.collect_gaze_data (eye_tracker.py lines 707-714). -/
structure GazeSample where
  timestamp : ℚ
  gaze_x : Option ℚ
  gaze_y : Option ℚ
  status : Bool
  looking_at_screen : Bool
  tracking_lost : Bool
  deriving DecidableEq, Repr

/-- The gaze estimation result handed to the subscriber callback.
filtered_gaze_coordinates is an optional sequence; the source indexes
positions 0 and 1 of it, which raises IndexError when the sequence is
shorter than two entries. -/
structure GazeInfo where
  status : Bool
  filtered_gaze_coordinates : Option (List ℚ)
  timestamp : ℚ
  deriving DecidableEq, Repr

/-- The dict stored in self.statistics by
EyeTrackerApp.calculate_statistics (eye_tracker.py lines 744-754). -/
structure Statistics where
  total_duration : ℚ
  time_looking_at_screen : ℚ
  time_tracking_lost : ℚ
  percentage_looking : ℚ
  percentage_lost : ℚ
  total_samples : Nat
  valid_samples : Nat
  screen_samples : Nat
  lost_samples : Nat
  deriving DecidableEq, Repr

/-- EyeTrackerApp.calculate_statistics (eye_tracker.py lines 719-754).
When the log is empty the method prints and returns early, leaving
self.statistics untouched; this early return is modelled by none.
The inner length-guard of the source is kept even though it is always
true past the early return. -/
def calculate_statistics (gaze_data : List GazeSample) (total_duration : ℚ) :
    Option Statistics :=
  if gaze_data.isEmpty then none
  else
    let samples_looking_at_screen := gaze_data.filter (fun d => d.looking_at_screen)
    let samples_tracking_lost := gaze_data.filter (fun d => d.tracking_lost)
    let valid_samples := gaze_data.filter (fun d => d.status && d.gaze_x.isSome)
    let time_looking_at_screen : ℚ :=
      if 0 < gaze_data.length then
        ((samples_looking_at_screen.length : ℚ) / (gaze_data.length : ℚ)) * total_duration
      else 0
    let time_tracking_lost : ℚ :=
      if 0 < gaze_data.length then
        ((samples_tracking_lost.length : ℚ) / (gaze_data.length : ℚ)) * total_duration
      else 0
    some {
      total_duration := total_duration
      time_looking_at_screen := time_looking_at_screen
      time_tracking_lost := time_tracking_lost
      percentage_looking :=
        if 0 < total_duration then time_looking_at_screen / total_duration * 100 else 0
      percentage_lost :=
        if 0 < total_duration then time_tracking_lost / total_duration * 100 else 0
      total_samples := gaze_data.length
      valid_samples := valid_samples.length
      screen_samples := samples_looking_at_screen.length
      lost_samples := samples_tracking_lost.length }

/-- Frames are opaque tokens: their pixel content never influences the
control flow under study. -/
abbrev Frame := Nat

/-- The consumer installed in the single camera callback slot.
process_frame is the GazeFollower consumer present outside recording
sessions; wrapped tags the closure wrapped_callback that
start_recording installs around the prior consumer. -/
inductive ConsumerTag
  | process_frame
  | wrapped (prior : ConsumerTag)
  deriving DecidableEq, Repr

/-- Instance fields of EyeTrackerApp that the session operations read or
write (eye_tracker.py __init__, lines 33-69).  saved_images is the trace
of filenames passed to cv2.imwrite by _save_frame_image. -/
structure App where
  state : AppState
  recording_start_time : Option ℚ
  recording_end_time : Option ℚ
  gaze_data : List GazeSample
  session_name : String
  session_dir : Option String
  images_dir : Option String
  last_image_save_time : ℚ
  image_save_interval : ℚ
  image_counter : Nat
  frame_count : Nat
  last_frame_log_time : ℚ
  saved_images : List String
  current_frame : Option Frame
  current_gaze_x : Option ℚ
  current_gaze_y : Option ℚ
  screen_width : ℚ
  screen_height : ℚ
  camera_callback : ConsumerTag
  original_camera_callback : Option ConsumerTag
  collect_subscribed : Bool
  sampling : Bool
  statistics : Option Statistics
  deriving DecidableEq, Repr

/-- Body of the try block of EyeTrackerApp.collect_gaze_data
(eye_tracker.py lines 680-714).  The only statements in the block that
can raise with this data model are the two indexings of
filtered_gaze_coordinates; both happen before any field is mutated, so
an error leaves the instance unchanged.  Python truthiness of gaze_info
is modelled by Option, truthiness of gaze_info.status by Bool. -/
def collect_gaze_data_try (app : App) (gaze_info : Option GazeInfo) (now : ℚ) :
    Except String App :=
  match gaze_info with
  | some gi =>
    if gi.status then
      match gi.filtered_gaze_coordinates with
      | some coords =>
        match coords.get? 0 with
        | none => .error "IndexError"
        | some gx =>
          match coords.get? 1 with
          | none => .error "IndexError"
          | some gy =>
            let looking_at_screen :=
              decide (0 ≤ gx ∧ gx ≤ app.screen_width ∧ 0 ≤ gy ∧ gy ≤ app.screen_height)
            .ok { app with
              current_gaze_x := some gx
              current_gaze_y := some gy
              gaze_data := app.gaze_data ++
                [⟨gi.timestamp, some gx, some gy, true, looking_at_screen, false⟩] }
      | none =>
        .ok { app with
          gaze_data := app.gaze_data ++ [⟨gi.timestamp, none, none, true, false, false⟩] }
    else
      .ok { app with
        current_gaze_x := none
        current_gaze_y := none
        gaze_data := app.gaze_data ++ [⟨gi.timestamp, none, none, false, false, true⟩] }
  | none =>
    .ok { app with
      current_gaze_x := none
      current_gaze_y := none
      gaze_data := app.gaze_data ++ [⟨now, none, none, false, false, true⟩] }

/-- EyeTrackerApp.collect_gaze_data (eye_tracker.py lines 678-717): the
except clause prints and returns, so the subscriber callback is a total
function of the instance; nothing propagates to the caller. -/
def collect_gaze_data (app : App) (gaze_info : Option GazeInfo) (now : ℚ) : App :=
  match collect_gaze_data_try app gaze_info now with
  | .ok app2 => app2
  | .error _ => app

/-- Python format spec 04d: decimal digits left-padded with zeros to a
minimum width of four. -/
def format_04d (n : Nat) : String :=
  let s := toString n
  (List.replicate (4 - s.length) '0').asString ++ s

/-- EyeTrackerApp._save_frame_image (eye_tracker.py lines 575-599):
lazily creates the temporary session directory on the first save, then
increments the counter and writes {counter:04d}.jpg into the images
directory.  A none recording_start_time would raise in the source; the
method only runs while recording, when the field is set, so getD 0
keeps the model total on that unreachable input. -/
def save_frame_image (app : App) : App :=
  let app :=
    if app.images_dir.isNone then
      let temp_session_name :=
        "session_" ++ toString (Int.floor (app.recording_start_time.getD 0))
      { app with
        session_dir := some temp_session_name
        images_dir := some (temp_session_name ++ "/images") }
    else app
  let counter := app.image_counter + 1
  { app with
    image_counter := counter
    saved_images := app.saved_images ++ [format_04d counter ++ ".jpg"] }

/-- Downstream frame consumers as seen by the camera: they receive the
frame (the state and timestamp arguments of the source are elided,
since no studied consumer inspects them) and may raise. -/
abbrev GFCallback := Option Frame → Except String Unit

/-- Result of the forwarding half of wrapped_callback. -/
inductive ForwardOutcome
  | forwarded
  | caught (e : String)
  | skipped
  deriving DecidableEq, Repr

/-- PARTIE 1 of wrapped_callback (eye_tracker.py lines 492-515): frame
capture, periodic logging and periodic image saving, all inside one
try/except, only while the state is RECORDING and a frame is present. -/
def wrapped_part1 (app : App) (now : ℚ) (frame : Option Frame) : App :=
  if app.state = AppState.RECORDING ∧ frame.isSome then
    let app := { app with current_frame := frame, frame_count := app.frame_count + 1 }
    let app :=
      if 5 ≤ now - app.last_frame_log_time then
        { app with last_frame_log_time := now }
      else app
    if app.image_save_interval ≤ now - app.last_image_save_time then
      { save_frame_image app with last_image_save_time := now }
    else app
  else app

/-- PARTIE 2 of wrapped_callback (eye_tracker.py lines 517-525): forward
the frame to the previously registered consumer inside its own
try/except; an exception is printed with its traceback and swallowed. -/
def wrapped_part2 (original : Option GFCallback) (frame : Option Frame) : ForwardOutcome :=
  match original with
  | none => .skipped
  | some cb =>
    match cb frame with
    | .ok _ => .forwarded
    | .error e => .caught e

/-- wrapped_callback from EyeTrackerApp.start_recording (eye_tracker.py
lines 491-525).  Its return type is a plain pair: the wrapper never
raises, whatever the downstream consumer does. -/
def wrapped_callback (app : App) (now : ℚ) (frame : Option Frame)
    (original : Option GFCallback) : App × ForwardOutcome :=
  (wrapped_part1 app now frame, wrapped_part2 original frame)

/-- Outcome of one iteration of the capture loop. -/
inductive CaptureOutcome
  | looped (logged_read_failure : Bool)
  | fatal (code : Nat)
  deriving DecidableEq, Repr

/-- One iteration of the while body of WebCamCamera.capture
(WebCamCamera.py lines 55-80), given that _camera_thread_running is
still true.  ret is the success flag of _cap.read(); a read failure is
logged and the loop continues.  An exception escaping the registered
callback reaches the except clause, which logs and calls sys.exit(1),
modelled as a process-fatal outcome. -/
def capture_iteration (ret : Bool) (callback_func : Option GFCallback) (frame : Frame) :
    CaptureOutcome :=
  if ¬ ret then .looped true
  else
    match callback_func with
    | none => .looped false
    | some cb =>
      match cb (some frame) with
      | .ok _ => .looped false
      | .error _ => .fatal 1

/-- State of WebCamCamera relevant to close (WebCamCamera.py lines
99-108).  camera_thread records whether _camera_thread is not None;
camera_thread_joined records that join() has returned, i.e. the capture
thread has exited; cap_released records that _cap.release() was
called. -/
structure WebCamCamera where
  camera_thread : Bool
  camera_thread_running : Bool
  camera_thread_joined : Bool
  cap_opened : Bool
  cap_released : Bool
  deriving DecidableEq, Repr

/-- WebCamCamera.close, exactly as written in the source: the thread is
stopped and joined when present, and _cap.release() runs only under the
check `if not self._cap.isOpened()`. -/
def WebCamCamera.close (c : WebCamCamera) : WebCamCamera :=
  let c :=
    if c.camera_thread then
      { c with camera_thread_running := false, camera_thread_joined := true }
    else c
  if !c.cap_opened then { c with cap_released := true } else c

/-- EyeTrackerApp.start_recording (eye_tracker.py lines 470-529): sets
the state to RECORDING, resets the session-scoped fields (start time,
log, image timer and counter, visualisation slots), saves the prior
camera consumer and installs the wrapping callback, subscribes the
collection callback and starts sampling.  The saved_images trace is a
process-global record of cv2.imwrite calls and is deliberately not
reset, matching the source, where only the counter is session-scoped. -/
def start_recording (app : App) (now : ℚ) : App :=
  let app := { app with
    state := AppState.RECORDING
    recording_start_time := some now
    gaze_data := []
    last_image_save_time := now
    image_counter := 0
    current_frame := none
    current_gaze_x := none
    current_gaze_y := none }
  { app with
    original_camera_callback := some app.camera_callback
    camera_callback := .wrapped app.camera_callback
    collect_subscribed := true
    sampling := true }

/-- Python str.strip(): drop whitespace from both ends.  Written on the
character list so that it evaluates inside the kernel. -/
def strip (s : String) : String :=
  (((s.data.dropWhile fun c => c.isWhitespace).reverse.dropWhile
    fun c => c.isWhitespace).reverse).asString

/-- EyeTrackerApp.get_session_name outcome (eye_tracker.py lines
563-567): the stripped text when non-empty, otherwise the fallback
session_<int(time.time())>. -/
def get_session_name (entered : String) (now : ℚ) : String :=
  if strip entered = "" then "session_" ++ toString (Int.floor now) else strip entered

/-- The while loop of stop_recording (eye_tracker.py lines 634-636):
starting from the given suffix, increment until base_suffix is not an
existing directory.  The loop of the source is unbounded; here it
carries structural fuel, and the theorems about it characterise its
result whenever some suffix within the fuel is free (always true of a
finite directory listing). -/
def collision_suffix_search (dirs : List String) (base : String) :
    Nat → Nat → Nat
  | suffix, 0 => suffix
  | suffix, fuel + 1 =>
    if (base ++ "_" ++ toString suffix) ∈ dirs then
      collision_suffix_search dirs base (suffix + 1) fuel
    else suffix

/-- Target directory name chosen by stop_recording (eye_tracker.py lines
628-637): the session name itself when free, otherwise the first free
name among name_1, name_2, ...  dirs is the listing of the working
directory. -/
def new_session_dir_name (dirs : List String) (session_name : String) : String :=
  if session_name ∈ dirs then
    session_name ++ "_" ++
      toString (collision_suffix_search dirs session_name 1 (dirs.length + 1))
  else session_name

/-- Externally visible actions performed by stop_recording, in program
order. -/
inductive StopEffect
  | stop_sampling
  | remove_subscriber
  | restore_camera_callback (c : ConsumerTag)
  | rename_dir (oldName newName : String)
  | make_dir (name : String)
  | save_csv (path : String)
  | compute_statistics
  | release_gaze_follower
  | pygame_quit
  | process_exit (code : Nat)
  deriving DecidableEq, Repr

/-- EyeTrackerApp.stop_recording (eye_tracker.py lines 601-676).  In
order: stop sampling, remove the subscriber, restore the saved camera
consumer when present, clear the visualisation slots, set the end time,
obtain the session name, rename the temporary directory (with suffix
collision avoidance) or create the named directory when no image was
ever saved, save the CSV, run calculate_statistics (which leaves
self.statistics untouched when the log is empty), release, quit pygame
and call os._exit(0).  The method never assigns self.state.  dirs is
the listing of the working directory, now the value of time.time(),
entered_name the text typed into get_session_name. -/
def stop_recording (app : App) (dirs : List String) (now : ℚ)
    (entered_name : String) : App × List StopEffect :=
  let app1 := { app with sampling := false, collect_subscribed := false }
  let restore : App × List StopEffect :=
    match app1.original_camera_callback with
    | some c => ({ app1 with camera_callback := c }, [.restore_camera_callback c])
    | none => (app1, [])
  let app2 := { restore.1 with
    current_frame := none
    current_gaze_x := none
    current_gaze_y := none
    recording_end_time := some now }
  let name := get_session_name entered_name now
  let app3 := { app2 with session_name := name }
  let dirStep : App × List StopEffect :=
    match app3.session_dir with
    | some sdir =>
      if sdir ∈ dirs then
        let newdir := new_session_dir_name dirs name
        ({ app3 with
            session_dir := some newdir
            images_dir := some (newdir ++ "/images") },
          [.rename_dir sdir newdir])
      else (app3, [])
    | none => ({ app3 with session_dir := some name }, [.make_dir name])
  let app4 := dirStep.1
  let csv_path := (app4.session_dir.getD name) ++ "/" ++ name ++ ".csv"
  let duration := now - (app4.recording_start_time.getD 0)
  let app5 := { app4 with statistics :=
    match calculate_statistics app4.gaze_data duration with
    | some st => some st
    | none => app4.statistics }
  (app5,
    [.stop_sampling, .remove_subscriber] ++ restore.2 ++ dirStep.2 ++
    [.save_csv csv_path, .compute_statistics, .release_gaze_follower,
     .pygame_quit, .process_exit 0])

/-- Shape of the C5 invariant for one sample: looking_at_screen only
with tracking on and both coordinates present and inside
[0, width] x [0, height]. -/
def sample_screen_invariant (w h : ℚ) (s : GazeSample) : Prop :=
  s.looking_at_screen = true →
    s.status = true ∧ ∃ x y, s.gaze_x = some x ∧ s.gaze_y = some y ∧
      0 ≤ x ∧ x ≤ w ∧ 0 ≤ y ∧ y ≤ h

/-- A concrete application state mirroring the field values set by
EyeTrackerApp.__init__ on a 1920x1080 display, used to instantiate the
general theorems. -/
def demo_app : App where
  state := .IDLE
  recording_start_time := none
  recording_end_time := none
  gaze_data := []
  session_name := ""
  session_dir := none
  images_dir := none
  last_image_save_time := 0
  image_save_interval := 2
  image_counter := 0
  frame_count := 0
  last_frame_log_time := 0
  saved_images := []
  current_frame := none
  current_gaze_x := none
  current_gaze_y := none
  screen_width := 1920
  screen_height := 1080
  camera_callback := .process_frame
  original_camera_callback := none
  collect_subscribed := false
  sampling := false
  statistics := none

/-- A concrete mid-recording application state: session started at time
100, the temporary directory session_100 created by the first image
save, the wrapper installed over the GazeFollower consumer, and one
tracking-loss sample collected. -/
def recording_demo_app : App :=
  { demo_app with
    state := .RECORDING
    recording_start_time := some 100
    session_dir := some "session_100"
    images_dir := some "session_100/images"
    camera_callback := .wrapped .process_frame
    original_camera_callback := some .process_frame
    collect_subscribed := true
    sampling := true
    gaze_data := [⟨101, none, none, false, false, true⟩] }

end EyeTracker

open EyeTracker

/-! ## Theorems -/

/-- C3: the calibration quality tier is assigned by exactly the fixed
thresholds: mean_error below 0.05 gives EXCELLENT, in [0.05, 0.10)
GOOD, in [0.10, 0.20) FAIR, at or above 0.20 POOR; in particular 0.0499
gives EXCELLENT, 0.05 GOOD, 0.0999 GOOD, 0.10 FAIR, 0.1999 FAIR and
0.20 POOR. -/
theorem calibration_quality_tier_thresholds :
    (∀ e : ℚ, e < 5/100 → calibration_quality_tier e = .EXCELLENT) ∧
    (∀ e : ℚ, 5/100 ≤ e → e < 10/100 → calibration_quality_tier e = .GOOD) ∧
    (∀ e : ℚ, 10/100 ≤ e → e < 20/100 → calibration_quality_tier e = .FAIR) ∧
    (∀ e : ℚ, 20/100 ≤ e → calibration_quality_tier e = .POOR) ∧
    calibration_quality_tier (499/10000) = .EXCELLENT ∧
    calibration_quality_tier (5/100) = .GOOD ∧
    calibration_quality_tier (999/10000) = .GOOD ∧
    calibration_quality_tier (10/100) = .FAIR ∧
    calibration_quality_tier (1999/10000) = .FAIR ∧
    calibration_quality_tier (20/100) = .POOR := by
  refine ⟨?_, ?_, ?_, ?_, ?_, ?_, ?_, ?_, ?_, ?_⟩ <;>
    simp only [calibration_quality_tier] <;>
    intros <;> split_ifs <;> first | rfl | linarith

/-- Witness for the threshold theorem at the concrete scores 0.01 and
0.15. -/
theorem calibration_quality_tier_thresholds_witness :
    calibration_quality_tier (1/100) = .EXCELLENT ∧
    calibration_quality_tier (15/100) = .FAIR :=
  ⟨calibration_quality_tier_thresholds.1 (1/100) (by norm_num),
   calibration_quality_tier_thresholds.2.2.1 (15/100) (by norm_num) (by norm_num)⟩

/-- C5: every entry that collect_gaze_data ever appends to the gaze
sample log has looking_at_screen true only if status (tracking_ok) is
true and both gaze coordinates are present and lie within
[0, screen_width] x [0, screen_height]; in particular no recorded
sample combines looking_at_screen true with tracking_ok false.  Stated
as preservation: a log all of whose entries satisfy the invariant still
satisfies it after any invocation of the callback, so the invariant
holds of every log reachable from the empty one start_recording
installs. -/
theorem collect_gaze_data_screen_invariant (app : App) (gi : Option GazeInfo) (now : ℚ)
    (h : ∀ s ∈ app.gaze_data, sample_screen_invariant app.screen_width app.screen_height s) :
    (∀ s ∈ (collect_gaze_data app gi now).gaze_data,
      sample_screen_invariant app.screen_width app.screen_height s) ∧
    (∀ s ∈ (collect_gaze_data app gi now).gaze_data,
      ¬(s.looking_at_screen = true ∧ s.status = false)) := by
  have main : ∀ s ∈ (collect_gaze_data app gi now).gaze_data,
      sample_screen_invariant app.screen_width app.screen_height s := by
    intro s hs
    rcases gi with _ | g
    · simp only [collect_gaze_data, collect_gaze_data_try, List.mem_append,
        List.mem_singleton] at hs
      rcases hs with hs | rfl
      · exact h s hs
      · intro hlook; simp at hlook
    · by_cases hst : g.status
      · rcases hco : g.filtered_gaze_coordinates with _ | coords
        · simp only [collect_gaze_data, collect_gaze_data_try, hst, hco, if_true,
            List.mem_append, List.mem_singleton] at hs
          rcases hs with hs | rfl
          · exact h s hs
          · intro hlook; simp at hlook
        · rcases coords with _ | ⟨x, _ | ⟨y, t⟩⟩
          · simp only [collect_gaze_data, collect_gaze_data_try, hst, hco, if_true,
              List.get?] at hs
            exact h s hs
          · simp only [collect_gaze_data, collect_gaze_data_try, hst, hco, if_true,
              List.get?] at hs
            exact h s hs
          · simp only [collect_gaze_data, collect_gaze_data_try, hst, hco, if_true,
              List.get?, List.mem_append, List.mem_singleton] at hs
            rcases hs with hs | rfl
            · exact h s hs
            · intro hlook
              simp only at hlook
              have hb := of_decide_eq_true hlook
              exact ⟨rfl, x, y, rfl, rfl, hb.1, hb.2.1, hb.2.2.1, hb.2.2.2⟩
      · simp only [Bool.not_eq_true] at hst
        simp only [collect_gaze_data, collect_gaze_data_try, hst, Bool.false_eq_true,
          if_false, List.mem_append, List.mem_singleton] at hs
        rcases hs with hs | rfl
        · exact h s hs
        · intro hlook; simp at hlook
  exact ⟨main, fun s hs hcon => by
    have := main s hs hcon.1
    rw [this.1] at hcon
    exact absurd hcon.2 (by simp)⟩

/-- Witness for the C5 invariant theorem: the tracking-loss sample
appended on a missing gaze result does not combine looking_at_screen
true with tracking_ok false. -/
theorem collect_gaze_data_screen_invariant_witness :
    ¬((⟨1, none, none, false, false, true⟩ : GazeSample).looking_at_screen = true ∧
      (⟨1, none, none, false, false, true⟩ : GazeSample).status = false) :=
  (collect_gaze_data_screen_invariant demo_app none 1 (by simp [demo_app])).2
    ⟨1, none, none, false, false, true⟩
    (by simp [collect_gaze_data, collect_gaze_data_try, demo_app])

/-- C7: every invocation of the gaze-result callback appends exactly
one sample: a missing gaze result, or one whose status is false, is
translated into a tracking-loss sample (coordinates absent, status
false, tracking_lost true) rather than skipped; when sample
construction raises (coordinate sequence shorter than two entries) the
exception is caught, that tick appends nothing and the state is
untouched; and every non-raising tick appends exactly one sample.  The
callback itself is a total function, so nothing propagates into the
caller. -/
theorem collect_gaze_data_one_sample_per_tick (app : App) (gi : Option GazeInfo) (now : ℚ) :
    (gi = none →
      (collect_gaze_data app gi now).gaze_data =
        app.gaze_data ++ [⟨now, none, none, false, false, true⟩]) ∧
    (∀ g, gi = some g → g.status = false →
      (collect_gaze_data app gi now).gaze_data =
        app.gaze_data ++ [⟨g.timestamp, none, none, false, false, true⟩]) ∧
    (∀ g coords, gi = some g → g.status = true →
      g.filtered_gaze_coordinates = some coords → coords.length < 2 →
      collect_gaze_data app gi now = app) ∧
    (∀ app2, collect_gaze_data_try app gi now = .ok app2 →
      ∃ s, app2.gaze_data = app.gaze_data ++ [s]) := by
  refine ⟨?_, ?_, ?_, ?_⟩
  · rintro rfl
    simp [collect_gaze_data, collect_gaze_data_try]
  · rintro g rfl hst
    simp [collect_gaze_data, collect_gaze_data_try, hst]
  · rintro g coords rfl hst hco hlen
    rcases coords with _ | ⟨x, _ | ⟨y, t⟩⟩
    · simp [collect_gaze_data, collect_gaze_data_try, hst, hco]
    · simp [collect_gaze_data, collect_gaze_data_try, hst, hco]
    · simp only [List.length_cons] at hlen; omega
  · intro app2 hok
    rcases gi with _ | g
    · simp only [collect_gaze_data_try, Except.ok.injEq] at hok
      exact ⟨_, by rw [← hok]⟩
    · by_cases hst : g.status
      · rcases hco : g.filtered_gaze_coordinates with _ | coords
        · simp only [collect_gaze_data_try, hst, hco, if_true, Except.ok.injEq] at hok
          exact ⟨_, by rw [← hok]⟩
        · rcases coords with _ | ⟨x, _ | ⟨y, t⟩⟩
          · simp [collect_gaze_data_try, hst, hco] at hok
          · simp [collect_gaze_data_try, hst, hco] at hok
          · simp only [collect_gaze_data_try, hst, hco, if_true, List.get?,
              Except.ok.injEq] at hok
            exact ⟨_, by rw [← hok]⟩
      · simp only [Bool.not_eq_true] at hst
        simp only [collect_gaze_data_try, hst, Bool.false_eq_true, if_false,
          Except.ok.injEq] at hok
        exact ⟨_, by rw [← hok]⟩

/-- Witness for the C7 theorem: a missing gaze result at time 7 appends
exactly the tracking-loss sample. -/
theorem collect_gaze_data_one_sample_per_tick_witness :
    (collect_gaze_data demo_app none 7).gaze_data =
      demo_app.gaze_data ++ [⟨7, none, none, false, false, true⟩] :=
  (collect_gaze_data_one_sample_per_tick demo_app none 7).1 rfl

/-- C10: in every sample the callback appends, the recorded
tracking_lost field is the negation of the recorded status field; and
when the estimator reports status true with no filtered coordinates, a
sample is still appended with status true, both coordinates absent and
looking_at_screen false. -/
theorem collect_gaze_data_lost_negates_status (app : App) (gi : Option GazeInfo) (now : ℚ) :
    (∀ s ∈ (collect_gaze_data app gi now).gaze_data,
      s ∈ app.gaze_data ∨ s.tracking_lost = !s.status) ∧
    (∀ g, gi = some g → g.status = true → g.filtered_gaze_coordinates = none →
      (collect_gaze_data app gi now).gaze_data =
        app.gaze_data ++ [⟨g.timestamp, none, none, true, false, false⟩]) := by
  constructor
  · intro s hs
    rcases gi with _ | g
    · simp only [collect_gaze_data, collect_gaze_data_try, List.mem_append,
        List.mem_singleton] at hs
      rcases hs with hs | rfl
      · exact Or.inl hs
      · exact Or.inr rfl
    · by_cases hst : g.status
      · rcases hco : g.filtered_gaze_coordinates with _ | coords
        · simp only [collect_gaze_data, collect_gaze_data_try, hst, hco, if_true,
            List.mem_append, List.mem_singleton] at hs
          rcases hs with hs | rfl
          · exact Or.inl hs
          · exact Or.inr rfl
        · rcases coords with _ | ⟨x, _ | ⟨y, t⟩⟩
          · simp only [collect_gaze_data, collect_gaze_data_try, hst, hco, if_true,
              List.get?] at hs
            exact Or.inl hs
          · simp only [collect_gaze_data, collect_gaze_data_try, hst, hco, if_true,
              List.get?] at hs
            exact Or.inl hs
          · simp only [collect_gaze_data, collect_gaze_data_try, hst, hco, if_true,
              List.get?, List.mem_append, List.mem_singleton] at hs
            rcases hs with hs | rfl
            · exact Or.inl hs
            · exact Or.inr rfl
      · simp only [Bool.not_eq_true] at hst
        simp only [collect_gaze_data, collect_gaze_data_try, hst, Bool.false_eq_true,
          if_false, List.mem_append, List.mem_singleton] at hs
        rcases hs with hs | rfl
        · exact Or.inl hs
        · exact Or.inr rfl
  · rintro g rfl hst hco
    simp [collect_gaze_data, collect_gaze_data_try, hst, hco]

/-- Witness for the C10 theorem: a status-true result with no filtered
coordinates at time 9 appends the tracked-but-coordinate-less sample. -/
theorem collect_gaze_data_lost_negates_status_witness :
    (collect_gaze_data demo_app (some ⟨true, none, 3⟩) 9).gaze_data =
      demo_app.gaze_data ++ [⟨3, none, none, true, false, false⟩] :=
  (collect_gaze_data_lost_negates_status demo_app (some ⟨true, none, 3⟩) 9).2
    ⟨true, none, 3⟩ rfl rfl rfl

/-- C4 (amended): for a non-empty sample log, the reducer yields
time_looking_at_screen = duration * screen_count / len(samples) and
time_tracking_lost = duration * lost_count / len(samples), with
percentage_looking = 100 * time_looking_at_screen / duration and
percentage_lost = 100 * time_tracking_lost / duration when duration is
positive and both percentages 0 when duration = 0; for an empty sample
log the reducer returns early and produces no statistics at all. -/
theorem calculate_statistics_formulas (samples : List GazeSample) (dur : ℚ) :
    (samples ≠ [] →
      ∃ st, calculate_statistics samples dur = some st ∧
        st.time_looking_at_screen =
          dur * ((samples.filter (fun d => d.looking_at_screen)).length : ℚ) /
            (samples.length : ℚ) ∧
        st.time_tracking_lost =
          dur * ((samples.filter (fun d => d.tracking_lost)).length : ℚ) /
            (samples.length : ℚ) ∧
        (0 < dur → st.percentage_looking = 100 * st.time_looking_at_screen / dur) ∧
        (0 < dur → st.percentage_lost = 100 * st.time_tracking_lost / dur) ∧
        (dur = 0 → st.percentage_looking = 0 ∧ st.percentage_lost = 0)) ∧
    (samples = [] → calculate_statistics samples dur = none) := by
  constructor
  · intro hne
    have hlen : 0 < samples.length := List.length_pos.2 hne
    have hemp : ¬ (samples.isEmpty = true) := by
      simp [List.isEmpty_iff, hne]
    rw [calculate_statistics, if_neg hemp]
    refine ⟨_, rfl, ?_, ?_, ?_, ?_, ?_⟩
    · simp only [if_pos hlen]; ring
    · simp only [if_pos hlen]; ring
    · intro hdur
      simp only [if_pos hdur, if_pos hlen]; ring
    · intro hdur
      simp only [if_pos hdur, if_pos hlen]; ring
    · rintro rfl
      norm_num
  · rintro rfl
    rfl

/-- Witness for the amended C4 theorem at a one-sample log. -/
theorem calculate_statistics_formulas_witness :
    calculate_statistics [⟨7, none, none, false, false, true⟩] 10 ≠ none := by
  obtain ⟨st, hst, -⟩ :=
    (calculate_statistics_formulas [⟨7, none, none, false, false, true⟩] 10).1 (by simp)
  simp [hst]

/-- C4 counterexample: on the empty sample log (duration 5) the reducer
produces no statistics whatsoever, refuting the claim that the time
fields equal 0 in that case: the assignment of zeros in the source is
dead code behind the early return. -/
theorem calculate_statistics_empty_counterexample :
    calculate_statistics ([] : List GazeSample) 5 = none ∧
    ¬ ∃ st : Statistics, calculate_statistics ([] : List GazeSample) 5 = some st ∧
      st.time_looking_at_screen = 0 ∧ st.time_tracking_lost = 0 := by
  refine ⟨rfl, ?_⟩
  rintro ⟨st, hst, -⟩
  simp [calculate_statistics] at hst

/-- Characterisation of the suffix-search while loop: whenever some
suffix within the fuel is free, the loop stops at the first free
suffix, every smaller candidate from the start value being an existing
directory. -/
theorem collision_suffix_search_least (dirs : List String) (base : String) :
    ∀ (fuel start : Nat),
      (∃ j, j < fuel ∧ (base ++ "_" ++ toString (start + j)) ∉ dirs) →
      (base ++ "_" ++ toString (collision_suffix_search dirs base start fuel)) ∉ dirs ∧
      start ≤ collision_suffix_search dirs base start fuel ∧
      ∀ j, start ≤ j → j < collision_suffix_search dirs base start fuel →
        (base ++ "_" ++ toString j) ∈ dirs := by
  intro fuel
  induction fuel with
  | zero =>
    intro start h
    obtain ⟨j, hj, -⟩ := h
    omega
  | succ n ih =>
    intro start h
    rw [collision_suffix_search]
    by_cases hmem : (base ++ "_" ++ toString start) ∈ dirs
    · rw [if_pos hmem]
      have h2 : ∃ j, j < n ∧ (base ++ "_" ++ toString (start + 1 + j)) ∉ dirs := by
        obtain ⟨j, hj, hfree⟩ := h
        rcases j with _ | j
        · exact absurd hmem (by simpa using hfree)
        · exact ⟨j, by omega, by
            have : start + 1 + j = start + (j + 1) := by omega
            rw [this]; exact hfree⟩
      obtain ⟨hfree, hle, hmin⟩ := ih (start + 1) h2
      refine ⟨hfree, by omega, ?_⟩
      intro j hj1 hj2
      rcases Nat.eq_or_lt_of_le hj1 with rfl | hj1
      · exact hmem
      · exact hmin j hj1 hj2
    · rw [if_neg hmem]
      exact ⟨hmem, le_refl _, fun j hj1 hj2 => absurd (lt_of_le_of_lt hj1 hj2) (lt_irrefl _)⟩

/-- C6: at session stop the target directory name is the
operator-supplied name when it is free; otherwise numeric suffixes _1,
_2, ... are tried in order and the first free one is taken; in
particular with directories lab and lab_1 already present, session name
lab produces lab_2, and stopping a concrete session whose temporary
directory is session_100 renames it to lab_2. -/
theorem new_session_dir_name_spec(dirs : List String) (name : String) :
    (name ∉ dirs → new_session_dir_name dirs name = name) ∧
    ((∃ j, j < dirs.length + 1 ∧ (name ++ "_" ++ toString (1 + j)) ∉ dirs) →
      name ∈ dirs →
      ∃ k, 1 ≤ k ∧ new_session_dir_name dirs name = name ++ "_" ++ toString k ∧
        (name ++ "_" ++ toString k) ∉ dirs ∧
        ∀ j, 1 ≤ j → j < k → (name ++ "_" ++ toString j) ∈ dirs) ∧
    new_session_dir_name ["lab", "lab_1"] "lab" = "lab_2" ∧
    (stop_recording recording_demo_app ["session_100", "lab", "lab_1"] 200 "lab").1.session_dir
      = some "lab_2" ∧
    StopEffect.rename_dir "session_100" "lab_2" ∈
      (stop_recording recording_demo_app ["session_100", "lab", "lab_1"] 200 "lab").2 := by
  have htrace :
      (stop_recording recording_demo_app ["session_100", "lab", "lab_1"] 200 "lab").2 =
        [.stop_sampling, .remove_subscriber, .restore_camera_callback .process_frame,
         .rename_dir "session_100" "lab_2", .save_csv "lab_2/lab.csv", .compute_statistics,
         .release_gaze_follower, .pygame_quit, .process_exit 0] := rfl
  refine ⟨?_, ?_, by rfl, by rfl, by rw [htrace]; simp⟩
  · intro hfree
    rw [new_session_dir_name, if_neg hfree]
  · intro hex hmem
    obtain ⟨hfree, hle, hmin⟩ := collision_suffix_search_least dirs name (dirs.length + 1) 1 hex
    exact ⟨collision_suffix_search dirs name 1 (dirs.length + 1), hle,
      by rw [new_session_dir_name, if_pos hmem], hfree, hmin⟩

/-- Witness for the C6 theorem: the chosen name for session lab with
lab and lab_1 on disk is itself not an existing directory, and a free
name is kept unchanged. -/
theorem new_session_dir_name_spec_witness :
    new_session_dir_name ["lab", "lab_1"] "lab" ∉ (["lab", "lab_1"] : List String) ∧
    new_session_dir_name ["images"] "lab" = "lab" := by
  constructor
  · obtain ⟨k, -, heq, hfree, -⟩ :=
      (new_session_dir_name_spec ["lab", "lab_1"] "lab").2.1
        ⟨1, by norm_num, by decide⟩ (by decide)
    rw [heq]; exact hfree
  · exact (new_session_dir_name_spec ["images"] "lab").1 (by decide)

/-- Field effect of one call to _save_frame_image: one filename is
appended and the counter advances by one, regardless of the lazy
directory creation. -/
theorem save_frame_image_fields (app : App) :
    (save_frame_image app).saved_images =
      app.saved_images ++ [format_04d (app.image_counter + 1) ++ ".jpg"] ∧
    (save_frame_image app).image_counter = app.image_counter + 1 := by
  simp only [save_frame_image]
  split <;> simp

/-- Iterating _save_frame_image k times from any state appends exactly
the filenames numbered counter+1, ..., counter+k in order. -/
theorem save_frame_image_iterate (k : Nat) : ∀ (app : App),
    (save_frame_image^[k] app).saved_images =
      app.saved_images ++
        (List.range k).map (fun i => format_04d (app.image_counter + i + 1) ++ ".jpg") ∧
    (save_frame_image^[k] app).image_counter = app.image_counter + k := by
  induction k with
  | zero => intro app; simp
  | succ n ih =>
    intro app
    rw [Function.iterate_succ_apply]
    obtain ⟨htrace, hcount⟩ := ih (save_frame_image app)
    obtain ⟨htr1, hc1⟩ := save_frame_image_fields app
    rw [htrace, hcount, htr1, hc1]
    constructor
    · rw [List.range_succ_eq_map, List.map_cons, List.map_map, List.append_assoc]
      simp only [Function.comp_def]
      have harg : ∀ a b : Nat, a = b → format_04d a ++ ".jpg" = format_04d b ++ ".jpg" := by
        rintro a b rfl; rfl
      congr 1
      rw [List.singleton_append]
      congr 1
      apply List.map_congr_left
      intro i hi
      exact harg _ _ (by omega)
    · omega

/-- C9: start_recording resets the session-scoped image counter to 0,
and any sequence of k save attempts after it persists exactly the
filenames format(1).jpg, ..., format(k).jpg in order, a strictly
increasing, gap-free, zero-padded sequence starting at 0001.jpg. -/
theorem image_filenames_sequential (app : App) (now : ℚ) (k : Nat) :
    (start_recording app now).image_counter = 0 ∧
    (save_frame_image^[k] (start_recording app now)).saved_images =
      (start_recording app now).saved_images ++
        (List.range k).map (fun i => format_04d (i + 1) ++ ".jpg") ∧
    format_04d 1 ++ ".jpg" = "0001.jpg" ∧
    format_04d 2 ++ ".jpg" = "0002.jpg" := by
  have h0 : (start_recording app now).image_counter = 0 := rfl
  refine ⟨h0, ?_, rfl, rfl⟩
  obtain ⟨htrace, -⟩ := save_frame_image_iterate k (start_recording app now)
  rw [htrace, h0]
  congr 1
  apply List.map_congr_left
  intro i hi
  congr 2
  omega

/-- Underlying characterisation of stop_recording on an arbitrary
application state: the state field is left untouched, sampling and the
subscription are turned off, the camera consumer slot receives the
saved consumer when one was saved, self.statistics receives the freshly
computed statistics exactly when the log is non-empty, and the effect
trace ends in the forced process exit. -/
theorem stop_recording_spec (app : App) (dirs : List String)
    (now : ℚ) (entered : String) :
    (stop_recording app dirs now entered).1.state = app.state ∧
    (stop_recording app dirs now entered).1.sampling = false ∧
    (stop_recording app dirs now entered).1.collect_subscribed = false ∧
    (stop_recording app dirs now entered).1.camera_callback =
      (match app.original_camera_callback with
       | some c => c
       | none => app.camera_callback) ∧
    (stop_recording app dirs now entered).1.statistics =
      (match calculate_statistics app.gaze_data (now - app.recording_start_time.getD 0) with
       | some st => some st
       | none => app.statistics) ∧
    ∃ rEff dEff p,
      (stop_recording app dirs now entered).2 =
        [.stop_sampling, .remove_subscriber] ++ rEff ++ dEff ++
        [.save_csv p, .compute_statistics, .release_gaze_follower,
         .pygame_quit, .process_exit 0] := by
  rcases app with ⟨st0, rst, ret, gd, sn, sd, imd, lst, isi, ic, fc, lft, si, cf, cgx, cgy, sw, sh, cc, occ, cs, smp, stats⟩
  cases occ with
  | none =>
    cases sd with
    | none =>
      simp only [stop_recording]
      refine ⟨?_, ?_, ?_, ?_, ?_, ?_⟩ <;> first | trivial | exact ⟨_, _, _, rfl⟩
    | some sdir =>
      by_cases hmem : sdir ∈ dirs <;>
        simp only [stop_recording, hmem, if_true, if_false] <;>
        refine ⟨?_, ?_, ?_, ?_, ?_, ?_⟩ <;> first | trivial | exact ⟨_, _, _, rfl⟩
  | some c =>
    cases sd with
    | none =>
      simp only [stop_recording]
      refine ⟨?_, ?_, ?_, ?_, ?_, ?_⟩ <;> first | trivial | exact ⟨_, _, _, rfl⟩
    | some sdir =>
      by_cases hmem : sdir ∈ dirs <;>
        simp only [stop_recording, hmem, if_true, if_false] <;>
        refine ⟨?_, ?_, ?_, ?_, ?_, ?_⟩ <;> first | trivial | exact ⟨_, _, _, rfl⟩

/-- C1 counterexample: stopping a concrete RECORDING session does not
put the state machine into STOPPED: the state field still reads
RECORDING and the effect trace ends with the forced os._exit(0), so the
STOPPED-state events never become available. -/
theorem stop_recording_counterexample :
    (stop_recording recording_demo_app ["session_100"] 200 "lab").1.state =
      AppState.RECORDING ∧
    AppState.RECORDING ≠ AppState.STOPPED ∧
    (stop_recording recording_demo_app ["session_100"] 200 "lab").2.getLast? =
      some (StopEffect.process_exit 0) := by
  refine ⟨rfl, by simp, rfl⟩

/-- C1 (amended): stopping a RECORDING session stops sampling, removes
the gaze subscriber, restores the prior camera consumer, finalizes the
directory name, persists the log and computes the statistics, in
program order, but never transitions the state machine to STOPPED: the
state field is left at RECORDING and the effect trace ends with
os._exit(0), making the STOPPED-state events unreachable through
stop. -/
theorem stop_recording_exits_without_stopped (app : App) (dirs : List String)
    (now : ℚ) (entered : String) (h : app.state = AppState.RECORDING) :
    (stop_recording app dirs now entered).1.state = AppState.RECORDING ∧
    (stop_recording app dirs now entered).1.state ≠ AppState.STOPPED ∧
    (stop_recording app dirs now entered).1.sampling = false ∧
    (stop_recording app dirs now entered).1.collect_subscribed = false ∧
    (∀ c, app.original_camera_callback = some c →
      (stop_recording app dirs now entered).1.camera_callback = c) ∧
    (∀ st, calculate_statistics app.gaze_data
        (now - app.recording_start_time.getD 0) = some st →
      (stop_recording app dirs now entered).1.statistics = some st) ∧
    ∃ rEff dEff p,
      (stop_recording app dirs now entered).2 =
        [.stop_sampling, .remove_subscriber] ++ rEff ++ dEff ++
        [.save_csv p, .compute_statistics, .release_gaze_follower,
         .pygame_quit, .process_exit 0] := by
  obtain ⟨h1, h2, h3, h4, h5, h6⟩ := stop_recording_spec app dirs now entered
  rw [h] at h1
  refine ⟨h1, ?_, h2, h3, ?_, ?_, h6⟩
  · rw [h1]; simp
  · intro c hc
    rw [h4, hc]
  · intro st hst
    rw [h5, hst]

/-- Witness for the amended C1 theorem at the concrete mid-recording
state. -/
theorem stop_recording_exits_without_stopped_witness :
    (stop_recording recording_demo_app ["session_100", "lab", "lab_1"] 200 "lab").1.sampling
      = false ∧
    (stop_recording recording_demo_app ["session_100", "lab", "lab_1"] 200 "lab").1.state
      ≠ AppState.STOPPED :=
  ⟨(stop_recording_exits_without_stopped recording_demo_app
      ["session_100", "lab", "lab_1"] 200 "lab" rfl).2.2.1,
   (stop_recording_exits_without_stopped recording_demo_app
      ["session_100", "lab", "lab_1"] 200 "lab" rfl).2.1⟩

/-- C2 (code bug): closing an open camera with a live capture thread
stops the loop flag and joins the thread, but does not release the
device: the release call sits behind the inverted check
`if not self._cap.isOpened()`, contradicting the method docstring
(release the webcam resources if the camera is currently opened).  The
last conjunct exhibits the inversion: a camera that is not opened is
the one that gets released. -/
theorem webcam_close_inverted_release :
    (WebCamCamera.close ⟨true, true, false, true, false⟩).camera_thread_running = false ∧
    (WebCamCamera.close ⟨true, true, false, true, false⟩).camera_thread_joined = true ∧
    (WebCamCamera.close ⟨true, true, false, true, false⟩).cap_released = false ∧
    (WebCamCamera.close ⟨false, false, false, false, false⟩).cap_released = true :=
  ⟨rfl, rfl, rfl, rfl⟩

/-- C8: failure isolation is asymmetric.  An exception raised by the
forward call to the downstream consumer inside wrapped_callback is
caught (the wrapper returns a plain value, so capture continues),
whereas the same exception escaping the consumer installed in the
capture loop itself produces the process-fatal sys.exit(1); a
non-raising consumer and a failed frame read both let the loop
continue. -/
theorem failure_isolation_asymmetry (app : App) (now : ℚ) (f : Frame)
    (cb : GFCallback) (e : String) (h : cb (some f) = .error e) :
    (wrapped_callback app now (some f) (some cb)).2 = .caught e ∧
    capture_iteration true (some cb) f = .fatal 1 ∧
    (∀ g : GFCallback, g (some f) = .ok () →
      capture_iteration true (some g) f = .looped false) ∧
    capture_iteration false (some cb) f = .looped true := by
  refine ⟨?_, ?_, ?_, ?_⟩
  · simp [wrapped_callback, wrapped_part2, h]
  · simp [capture_iteration, h]
  · intro g hg
    simp [capture_iteration, hg]
  · simp [capture_iteration]

/-- Witness for the C8 theorem with a consumer that always raises. -/
theorem failure_isolation_asymmetry_witness :
    (wrapped_callback demo_app 0 (some 1) (some (fun _ => .error "boom"))).2 =
      .caught "boom" ∧
    capture_iteration true (some (fun _ => .error "boom")) 1 = .fatal 1 :=
  ⟨(failure_isolation_asymmetry demo_app 0 1 (fun _ => .error "boom") "boom" rfl).1,
   (failure_isolation_asymmetry demo_app 0 1 (fun _ => .error "boom") "boom" rfl).2.1⟩
